import Mathlib

/-!
Shallow embedding of the batch/playlist download orchestration and retry
subsystem of the YTdownloader repository, together with theorems checking
the natural-language specification against it.

Embedded source files:
* `retry_handler.py` — `RetryHandler.execute_with_retry`, `_is_retryable_error`
* `batchmode.py` — `BatchModeManager` (queue state machine)
* `main.py` / `process.py` — the batch orchestration glue
  (`on_download_failed`, `on_download_finished`, `complete_batch`,
  `start_batch_download`, `DownloadThread.run`).

Python strings are modelled as Lean `String`; Python `pattern in text`
substring tests are modelled by `containsSub` on the underlying character
lists; Python `str.lower()` by mapping `Char.toLower` (all patterns in the
source are ASCII).
-/

namespace YTD

/-- `containsSub pat s` is true iff `pat` occurs as a contiguous substring of
`s` (character-list level); models Python's `pat in s`. -/
def containsSub (pat : List Char) : List Char → Bool
  | [] => pat.isEmpty
  | c :: rest => pat.isPrefixOf (c :: rest) || containsSub pat rest

/-- Lower-cased character list of a string; models Python `s.lower()` for the
ASCII strings used by the source. -/
def lowerChars (s : String) : List Char := s.data.map Char.toLower

/-- Case-insensitive substring test used by the retry classifier. -/
def strContainsLower (pat : String) (msg : String) : Bool :=
  containsSub pat.data (lowerChars msg)

/-- Case-sensitive substring test; models Python `pat in msg` without
lowering (used by `main.py`'s authentication-error check). -/
def strContainsCase (pat : String) (msg : String) : Bool :=
  containsSub pat.data msg.data

/-- `retry_handler.py` lines 86-93: `retryable_patterns`. -/
def retryable_patterns : List String :=
  ["connection", "timeout", "network", "unreachable",
   "temporary failure", "service unavailable", "bad gateway",
   "gateway timeout", "connection reset", "connection refused",
   "dns", "resolve", "interrupted", "broken pipe",
   "http error 5", "http error 429",
   "unable to download", "download error"]

/-- `retry_handler.py` lines 96-101: `non_retryable_patterns`. -/
def non_retryable_patterns : List String :=
  ["video unavailable", "private video", "video removed",
   "copyright", "blocked", "not found", "invalid url",
   "unsupported url", "age restricted", "login required",
   "cancelled by user", "sign in to confirm you\x27re not a bot"]

/-- `RetryHandler._is_retryable_error` (`retry_handler.py` lines 73-114):
lower-case the error text, check the fatal list first, then the retryable
list, default to `true`. -/
def is_retryable_error (msg : String) : Bool :=
  let m := lowerChars msg
  if non_retryable_patterns.any (fun p => containsSub p.data m) then false
  else if retryable_patterns.any (fun p => containsSub p.data m) then true
  else true

/-- Terminal outcome of `RetryHandler.execute_with_retry`: the Python code
returns the result on success and raises on final failure or cancellation;
the embedding returns this sum instead. -/
inductive Outcome
  | succeeded
  | failed (err : String)
  | cancelledRun
  deriving Repr, DecidableEq

/-- Observable actions of one `execute_with_retry` run, in order: a backoff
sleep (with its attempt number and delay) or an invocation of the wrapped
function at a given attempt number. -/
inductive RetryAction
  | sleep (attempt : Nat) (delay : Nat)
  | invoke (attempt : Nat)
  deriving Repr, DecidableEq

/-- `RetryHandler.__init__`: `self.retry_delays = retry_delays or [30, 60, 180]`
(an empty list is falsy in Python, so the default applies). -/
def normDelays (ds : List Nat) : List Nat :=
  if ds.isEmpty then [30, 60, 180] else ds

/-- `retry_handler.py` line 46:
`delay = self.retry_delays[min(attempt - 1, len(self.retry_delays) - 1)]`
for `attempt ≥ 1` (the list is never empty after `normDelays`). -/
def delayFor (ds : List Nat) (attempt : Nat) : Nat :=
  ds.getD (min (attempt - 1) (ds.length - 1)) 0

/-- Loop body of `RetryHandler.execute_with_retry` (`retry_handler.py` lines
39-71), one recursion step per `for attempt in range(max_retries + 1)`
iteration. `cancelled k` is the state of `self._is_cancelled` as read at the
top of iteration `k`; `func k` is the result of the `k`-th invocation of the
wrapped function (`Except.error e` models a raised exception with text `e`).
`remaining` is `maxRetries - attempt`, so the fuel-exhausted branch is
unreachable from `execute_with_retry`'s entry point. Returns the outcome and
the ordered list of observable actions. -/
def execute_with_retry_aux (cancelled : Nat → Bool) (func : Nat → Except String Unit)
    (maxRetries : Nat) (delays : List Nat) :
    Nat → Nat → Outcome × List RetryAction
  | attempt, remaining =>
    if cancelled attempt then (Outcome.cancelledRun, [])
    else
      let pre : List RetryAction :=
        if attempt > 0 then [RetryAction.sleep attempt (delayFor delays attempt)] else []
      match func attempt with
      | Except.ok _ => (Outcome.succeeded, pre ++ [RetryAction.invoke attempt])
      | Except.error e =>
        if is_retryable_error e = false then
          (Outcome.failed e, pre ++ [RetryAction.invoke attempt])
        else if attempt = maxRetries then
          (Outcome.failed e, pre ++ [RetryAction.invoke attempt])
        else
          match remaining with
          | 0 => (Outcome.failed e, pre ++ [RetryAction.invoke attempt])
          | r + 1 =>
            let rest := execute_with_retry_aux cancelled func maxRetries delays (attempt + 1) r
            (rest.1, pre ++ [RetryAction.invoke attempt] ++ rest.2)

/-- `RetryHandler.execute_with_retry` (`retry_handler.py` lines 22-71). -/
def execute_with_retry (maxRetries : Nat) (delays : List Nat)
    (cancelled : Nat → Bool) (func : Nat → Except String Unit) :
    Outcome × List RetryAction :=
  execute_with_retry_aux cancelled func maxRetries (normDelays delays) 0 maxRetries

/-- Number of invocations of the wrapped function recorded in an action
trace. -/
def invocations (as : List RetryAction) : Nat :=
  (as.filter (fun a => match a with
    | RetryAction.invoke _ => true
    | _ => false)).length

/-- Attempt number an action belongs to. -/
def actionAttempt : RetryAction → Nat
  | RetryAction.sleep j _ => j
  | RetryAction.invoke j => j

/-! ## BatchModeManager (`batchmode.py`)

Python strings in the queue are kept as strings (the source encodes lazy
playlist items as `"PLAYLIST_ITEM_<n>"` sentinel strings). The string
helpers below replace the Python built-ins with kernel-computable
equivalents over the underlying character lists. -/

/-- Models Python `s.split(sep)` for a single-character separator. -/
def splitOnChar (sep : Char) (cs : List Char) : List (List Char) :=
  cs.foldr (fun c acc => match acc with
    | [] => [[c]]
    | g :: gs => if c = sep then [] :: (g :: gs) else (c :: g) :: gs) [[]]

/-- Models Python `int(s)` on the non-negative decimal numerals the source
generates for placeholders (rejects anything else, which the source catches
as a `ValueError`). -/
def parseNatChars (cs : List Char) : Option Nat :=
  if cs.isEmpty then none
  else cs.foldl (fun acc c =>
    acc.bind (fun n =>
      if 48 ≤ c.toNat ∧ c.toNat ≤ 57 then some (n * 10 + (c.toNat - 48)) else none)) (some 0)

/-- Models Python `s.strip()`. -/
def trimStr (s : String) : String :=
  ⟨(s.data.dropWhile Char.isWhitespace).reverse.dropWhile Char.isWhitespace |>.reverse⟩

/-- The `playlist_data` dict built by `PlaylistInfoExtractor.run`
(`batchmode.py` lines 82-91). -/
structure PlaylistInfo where
  title : String
  uploader : String
  video_count : Nat
  url : String
  id : String
  entries : List String
  list_id : String
  is_mix : Bool
  deriving Repr, DecidableEq

/-- `BatchModeManager.batch_settings` (`batchmode.py` lines 117-123). -/
structure BatchSettings where
  resolution : String
  download_subs : Bool
  download_path : String
  container_override : Option String
  audio_override : Option String
  deriving Repr, DecidableEq

/-- The mutable state of `BatchModeManager` (`batchmode.py` `__init__`,
lines 110-129); the extractor object itself is not part of the queue
state. -/
structure BatchState where
  is_batch_mode : Bool
  batch_queue : List String
  current_batch_index : Nat
  successful_downloads : Nat
  failed_downloads : Nat
  batch_settings : BatchSettings
  current_playlist_info : Option PlaylistInfo
  playlist_current_index : Nat
  playlist_max_items : Option Nat
  deriving Repr, DecidableEq

/-- `BatchModeManager.__init__` field defaults. -/
def initial_state : BatchState :=
  { is_batch_mode := false
    batch_queue := []
    current_batch_index := 0
    successful_downloads := 0
    failed_downloads := 0
    batch_settings :=
      { resolution := "720p", download_subs := false, download_path := "",
        container_override := none, audio_override := none }
    current_playlist_info := none
    playlist_current_index := 0
    playlist_max_items := none }

/-- Qt signals emitted by `BatchModeManager`, recorded in emission order. -/
inductive BatchEvent
  | queue_updated
  | queue_limit_reached (size : Nat)
  | queue_limit_warning (size : Nat) (limit : Nat)
  | playlist_loading (msg : String)
  | playlist_detected
  | batch_status_changed (active : Bool)
  deriving Repr, DecidableEq

/-- `BatchModeManager.enable_batch_mode` (`batchmode.py` lines 252-270). -/
def enable_batch_mode (st : BatchState) (resolution : String) (download_subs : Bool)
    (download_path : String) (container_override audio_override : Option String) :
    BatchState × List BatchEvent :=
  ({ st with
      is_batch_mode := true
      batch_settings :=
        { resolution := resolution, download_subs := download_subs,
          download_path := download_path,
          container_override := container_override,
          audio_override := audio_override }
      batch_queue := []
      current_batch_index := 0
      successful_downloads := 0
      failed_downloads := 0 },
   [BatchEvent.batch_status_changed true])

/-- `BatchModeManager.add_to_batch` (`batchmode.py` lines 304-331).
`isPlaylistUrl` abstracts `is_playlist_url` (whose internals parse the URL
with `urllib.parse`, outside the queue core); a plain video URL is one on
which it returns `false`. For a playlist URL the synchronous effect is to
emit `playlist_loading` and start the asynchronous extractor
(`handle_playlist_url`, lines 150-172), leaving the queue untouched; the
asynchronous completion is `on_playlist_info_extracted` below.
The 80% warning threshold models Python's `int(queue_limit * 0.8)`
(equal to `queue_limit * 8 / 10` in integer arithmetic for every
realistically sized limit). -/
def add_to_batch (isPlaylistUrl : String → Bool) (st : BatchState) (url : String)
    (queue_limit : Option Nat) : Bool × BatchState × List BatchEvent :=
  let url := trimStr url
  if url = "" then (false, st, [])
  else
    match queue_limit with
    | some limit =>
      if st.batch_queue.length ≥ limit then
        (false, st, [BatchEvent.queue_limit_reached st.batch_queue.length])
      else if isPlaylistUrl url then
        (true, st, [BatchEvent.playlist_loading "Getting playlist information..."])
      else if st.batch_queue.contains url then (false, st, [])
      else
        let st' := { st with batch_queue := st.batch_queue ++ [url] }
        let warn : List BatchEvent :=
          if st'.batch_queue.length ≥ limit * 8 / 10 then
            [BatchEvent.queue_limit_warning st'.batch_queue.length limit]
          else []
        (true, st', [BatchEvent.queue_updated] ++ warn)
    | none =>
      if isPlaylistUrl url then
        (true, st, [BatchEvent.playlist_loading "Getting playlist information..."])
      else if st.batch_queue.contains url then (false, st, [])
      else
        (true, { st with batch_queue := st.batch_queue ++ [url] },
         [BatchEvent.queue_updated])

/-- `BatchModeManager.on_playlist_info_extracted` (`batchmode.py` lines
174-209): records the descriptor, auto-enables batch mode if needed
(resetting the queue through `enable_batch_mode`'s defaults), replaces the
queue with 1-based `PLAYLIST_ITEM_<n>` placeholder strings capped by
`queue_limit` and `playlist_max_items`, and emits the corresponding
signals. -/
def on_playlist_info_extracted (st : BatchState) (info : PlaylistInfo)
    (queue_limit : Option Nat) : BatchState × List BatchEvent :=
  let st := { st with current_playlist_info := some info, playlist_current_index := 0 }
  let (st, evs) :=
    if st.is_batch_mode = false then
      let (st', evs') := enable_batch_mode st "720p" false "" none none
      (st', [BatchEvent.playlist_detected] ++ evs')
    else (st, [BatchEvent.playlist_detected])
  let total := info.video_count
  let max_items :=
    match queue_limit with
    | some q => if q > 0 then min total q else total
    | none => total
  let max_items :=
    match st.playlist_max_items with
    | some m => if m > 0 then min max_items m else max_items
    | none => max_items
  let queue := (List.range max_items).map (fun i => "PLAYLIST_ITEM_" ++ toString (i + 1))
  let st := { st with batch_queue := queue }
  let evs := evs ++
    [BatchEvent.playlist_loading
      ("Playlist \x27" ++ info.title ++ "\x27 ready: " ++ toString max_items ++
        " videos queued for download"),
     BatchEvent.queue_updated]
  let evs :=
    match queue_limit with
    | some q =>
      if st.batch_queue.length ≥ q then
        evs ++ [BatchEvent.queue_limit_reached st.batch_queue.length]
      else evs
    | none => evs
  (st, evs)

/-- `BatchModeManager.get_playlist_video_url` (`batchmode.py` lines
215-250); note the function reads `entries` 0-based and appends a 1-based
`index=<index+1>` hint to the URL. -/
def get_playlist_video_url (st : BatchState) (index : Nat) : Option String :=
  match st.current_playlist_info with
  | none => none
  | some info =>
    let entry_url : Option String := info.entries[index]?
    let list_id : String :=
      if info.list_id ≠ "" then info.list_id
      else if info.id ≠ "" then info.id
      else ""
    match entry_url with
    | some u =>
      let sep := if u.data.contains '?' then "&" else "?"
      if list_id ≠ "" then
        some (u ++ sep ++ "list=" ++ list_id ++ "&index=" ++ toString (index + 1))
      else some u
    | none =>
      let playlist_url := info.url
      if playlist_url ≠ "" then
        let sep := if playlist_url.data.contains '?' then "&" else "?"
        if list_id ≠ "" then
          some (playlist_url ++ sep ++ "list=" ++ list_id ++ "&index=" ++
            toString (index + 1))
        else some (playlist_url ++ sep ++ "index=" ++ toString (index + 1))
      else none

/-- The item dict built by `_build_batch_item_data` (`batchmode.py` lines
389-396). -/
structure ItemData where
  url : String
  resolution : String
  download_subs : Bool
  download_path : String
  container_override : Option String
  audio_override : Option String
  deriving Repr, DecidableEq

/-- `BatchModeManager._build_batch_item_data` (`batchmode.py` lines
364-396). `resolvePath` abstracts `_resolve_playlist_download_path`, whose
result depends on persisted `AppSettings` and the filesystem. Returns
`none` when a playlist item's URL cannot be materialized. -/
def build_batch_item_data (resolvePath : String → String) (st : BatchState)
    (queue_item : String) (is_playlist_item : Bool) (item_index : Nat) :
    Option ItemData × BatchState :=
  let s := st.batch_settings
  if is_playlist_item then
    match get_playlist_video_url st item_index with
    | none => (none, st)
    | some actual_url =>
      let st := { st with playlist_current_index := item_index + 1 }
      let download_path :=
        if s.download_path ≠ "" then resolvePath s.download_path else s.download_path
      (some { url := actual_url, resolution := s.resolution,
              download_subs := s.download_subs, download_path := download_path,
              container_override := s.container_override,
              audio_override := s.audio_override }, st)
  else
    (some { url := queue_item, resolution := s.resolution,
            download_subs := s.download_subs, download_path := s.download_path,
            container_override := s.container_override,
            audio_override := s.audio_override }, st)

/-- Placeholder parsing inside `get_next_batch_item` (`batchmode.py` lines
407-416): `queue_item.startswith('PLAYLIST_ITEM_')` then
`int(queue_item.split('_')[-1])`, with a failed parse falling back to a
regular item (the `except` branch leaves `is_playlist_item = False`). -/
def parse_playlist_item (queue_item : String) : Option Nat :=
  if ("PLAYLIST_ITEM_".data).isPrefixOf queue_item.data then
    match (splitOnChar '_' queue_item.data).getLast? with
    | some part => parseNatChars part
    | none => none
  else none

/-- `BatchModeManager.get_next_batch_item` (`batchmode.py` lines 398-424). -/
def get_next_batch_item (resolvePath : String → String) (st : BatchState) :
    Option ItemData × BatchState :=
  if st.is_batch_mode = false ∨ st.batch_queue.length ≤ st.current_batch_index then
    (none, st)
  else
    let queue_item := st.batch_queue.getD st.current_batch_index ""
    let st := { st with current_batch_index := st.current_batch_index + 1 }
    match parse_playlist_item queue_item with
    | some item_index => build_batch_item_data resolvePath st queue_item true item_index
    | none => build_batch_item_data resolvePath st queue_item false 0

/-- `BatchModeManager.mark_download_completed` (`batchmode.py` lines
426-431). -/
def mark_download_completed (st : BatchState) (success : Bool) : BatchState :=
  if success then { st with successful_downloads := st.successful_downloads + 1 }
  else { st with failed_downloads := st.failed_downloads + 1 }

/-- `BatchModeManager.is_batch_complete` (`batchmode.py` lines 433-435). -/
def is_batch_complete (st : BatchState) : Bool :=
  decide (st.batch_queue.length ≤ st.current_batch_index)

/-- `BatchModeManager.get_batch_summary` (`batchmode.py` lines 458-472),
restricted to the `(successful, failed, total)` counters (the completion
rate is a float derived from them). -/
def get_batch_summary (st : BatchState) : Nat × Nat × Nat :=
  (st.successful_downloads, st.failed_downloads, st.batch_queue.length)

/-- `BatchModeManager.clear_batch_queue` (`batchmode.py` lines 474-482). -/
def clear_batch_queue (st : BatchState) : BatchState × List BatchEvent :=
  ({ st with
      batch_queue := []
      current_batch_index := 0
      successful_downloads := 0
      failed_downloads := 0
      current_playlist_info := none
      playlist_current_index := 0 },
   [BatchEvent.queue_updated])

/-- `BatchModeManager.trim_queue_to_limit` (`batchmode.py` lines 484-499);
a `Nat` limit satisfies the `limit < 0` guard vacuously. -/
def trim_queue_to_limit (st : BatchState) (limit : Nat) : BatchState × List BatchEvent :=
  let st := { st with playlist_max_items := some limit }
  if st.batch_queue.length > limit then
    let q := st.batch_queue.take limit
    let cursor :=
      if st.current_batch_index > q.length then q.length else st.current_batch_index
    let pci :=
      if st.playlist_current_index > q.length then q.length else st.playlist_current_index
    ({ st with
        batch_queue := q
        current_batch_index := cursor
        playlist_current_index := pci },
     [BatchEvent.queue_updated])
  else (st, [])

/-- `BatchModeManager.remove_from_queue` (`batchmode.py` lines 510-516). -/
def remove_from_queue (st : BatchState) (index : Nat) : BatchState × List BatchEvent :=
  if index < st.batch_queue.length then
    let q := st.batch_queue.eraseIdx index
    let cursor :=
      if index < st.current_batch_index then st.current_batch_index - 1
      else st.current_batch_index
    ({ st with batch_queue := q, current_batch_index := cursor },
     [BatchEvent.queue_updated])
  else (st, [])

/-- `BatchModeManager.move_in_queue` (`batchmode.py` lines 518-535). -/
def move_in_queue (st : BatchState) (fromIdx toIdx : Nat) :
    Bool × BatchState × List BatchEvent :=
  if fromIdx ≥ st.batch_queue.length then (false, st, [])
  else if toIdx ≥ st.batch_queue.length then (false, st, [])
  else if fromIdx = toIdx then (true, st, [])
  else
    let item := st.batch_queue.getD fromIdx ""
    let q := (st.batch_queue.eraseIdx fromIdx).insertIdx toIdx item
    let cursor :=
      if st.current_batch_index = fromIdx then toIdx
      else if fromIdx < st.current_batch_index ∧ st.current_batch_index ≤ toIdx then
        st.current_batch_index - 1
      else if toIdx ≤ st.current_batch_index ∧ st.current_batch_index < fromIdx then
        st.current_batch_index + 1
      else st.current_batch_index
    (true, { st with batch_queue := q, current_batch_index := cursor },
     [BatchEvent.queue_updated])

/-! ## Batch orchestration glue (`main.py`, `process.py`)

`DownloadThread.run` (`process.py` lines 164-200) wraps one job in
`execute_with_retry` with `max_retries=3`, `retry_delays=[30,60,180]`.
On a raised (non-cancelled) final error it emits `download_failed` with a
wrapped message and then, in the `finally` block, always emits `finished`.
`main.py` connects `download_failed → on_download_failed` and
`finished → on_download_finished`. -/

/-- Signals a `DownloadThread` delivers to the controller, in order. -/
inductive ThreadSignal
  | dlFailed (msg : String)
  | finishedSig
  deriving Repr, DecidableEq

/-- Effects of the controller handlers observable to this core:
a deferred `start_batch_download` pump (`QTimer.singleShot`), a
`complete_batch` summary, or the authentication-error interaction. -/
inductive OrchEvent
  | pumpScheduled
  | batchCompleted (successful : Nat) (failed : Nat) (total : Nat)
  | authRequested
  deriving Repr, DecidableEq

/-- `DownloadThread.run` (`process.py` lines 164-200) for a job whose
`k`-th attempt result is `stub k`, with no cancellation: outcome of the
retry loop plus the number of attempts actually executed. -/
def run_download_thread (stub : Nat → Except String Unit) : Outcome × Nat :=
  let r := execute_with_retry 3 [30, 60, 180] (fun _ => false) stub
  (r.1, invocations r.2)

/-- Signals emitted by `DownloadThread.run` for a terminal outcome
(`process.py` lines 175-200): failure emits `download_failed` with the
`"Download failed: "`-wrapped error (no video title resolved) and then
`finished`; success and cancellation emit only `finished`. -/
def thread_signals : Outcome → List ThreadSignal
  | Outcome.succeeded => [ThreadSignal.finishedSig]
  | Outcome.failed e =>
    [ThreadSignal.dlFailed ("Download failed: " ++ e), ThreadSignal.finishedSig]
  | Outcome.cancelledRun => [ThreadSignal.finishedSig]

/-- `complete_batch` (`main.py` lines 1588-1604): reads the summary, then
clears the queue (which resets both counters). -/
def complete_batch (st : BatchState) : BatchState × (Nat × Nat × Nat) :=
  let summary := get_batch_summary st
  ((clear_batch_queue st).1, summary)

/-- `on_download_failed` (`main.py` lines 1411-1455), restricted to its
queue effects: the authentication short-circuit, then in batch mode a
failure mark followed by either a deferred pump or batch completion. -/
def on_download_failed (st : BatchState) (err : String) : BatchState × List OrchEvent :=
  if strContainsCase "Sign in to confirm you\x27re not a bot" err then
    (st, [OrchEvent.authRequested])
  else if st.is_batch_mode then
    let st := mark_download_completed st false
    if is_batch_complete st = false then (st, [OrchEvent.pumpScheduled])
    else
      let (st', s) := complete_batch st
      (st', [OrchEvent.batchCompleted s.1 s.2.1 s.2.2])
  else (st, [])

/-- `on_download_finished` (`main.py` lines 1538-1586), restricted to its
queue effects: in batch mode it unconditionally marks the download as a
success ("assume success if we get here") and then either schedules a pump
or completes the batch. -/
def on_download_finished (st : BatchState) : BatchState × List OrchEvent :=
  if st.is_batch_mode then
    let st := mark_download_completed st true
    if is_batch_complete st = false then (st, [OrchEvent.pumpScheduled])
    else
      let (st', s) := complete_batch st
      (st', [OrchEvent.batchCompleted s.1 s.2.1 s.2.2])
  else (st, [])

/-- Deliver a thread's signals to the connected handlers in emission order
(Qt queues cross-thread signals in order; the deferred `QTimer` pumps fire
only after both handlers have run). -/
def process_signals (st : BatchState) : List ThreadSignal → BatchState × List OrchEvent
  | [] => (st, [])
  | ThreadSignal.dlFailed m :: rest =>
    let (st', evs) := on_download_failed st m
    let (st'', evs') := process_signals st' rest
    (st'', evs ++ evs')
  | ThreadSignal.finishedSig :: rest =>
    let (st', evs) := on_download_finished st
    let (st'', evs') := process_signals st' rest
    (st'', evs ++ evs')

/-- The batch pump loop: `start_batch_download` (`main.py` lines
1223-1277) with an empty URL input field, iterated as long as a handler
scheduled another pump (duplicate deferred pumps collapse into one through
the `is_downloading` guard). Each job is executed by `run_download_thread`
on `stub url`. Returns the final state, the per-job `(url, attempts)`
list, and all orchestration events in order. `fuel` bounds the number of
pumps. -/
def run_batch_session (resolvePath : String → String)
    (stub : String → Nat → Except String Unit) :
    Nat → BatchState → BatchState × List (String × Nat) × List OrchEvent
  | 0, st => (st, [], [])
  | fuel + 1, st =>
    match get_next_batch_item resolvePath st with
    | (none, st') =>
      if is_batch_complete st' then
        let (st'', s) := complete_batch st'
        (st'', [], [OrchEvent.batchCompleted s.1 s.2.1 s.2.2])
      else (st', [], [])
    | (some item, st') =>
      let r := run_download_thread (stub item.url)
      let (st'', evs) := process_signals st' (thread_signals r.1)
      if evs.contains OrchEvent.pumpScheduled &&
          !(evs.contains OrchEvent.authRequested) then
        let rest := run_batch_session resolvePath stub fuel st''
        (rest.1, (item.url, r.2) :: rest.2.1, evs ++ rest.2.2)
      else
        (st'', [(item.url, r.2)], evs)

/-! ## Concrete scenario states used by the claims -/

/-- Queue-state invariant of the specification:
`0 ≤ cursor ≤ len(items)` (the lower bound is inherent to `Nat`). -/
def cursor_invariant (st : BatchState) : Prop :=
  st.current_batch_index ≤ st.batch_queue.length

/-- Dequeue `n` successive items, collecting their materialized URLs. -/
def dequeue_urls (resolvePath : String → String) : Nat → BatchState → List (Option String)
  | 0, _ => []
  | n + 1, st =>
    let r := get_next_batch_item resolvePath st
    (r.1.map ItemData.url) :: dequeue_urls resolvePath n r.2

/-- A 10-entry playlist: `entries[i] = "https://v<i>"`. -/
def c1_entries : List String :=
  ["https://v0", "https://v1", "https://v2", "https://v3", "https://v4",
   "https://v5", "https://v6", "https://v7", "https://v8", "https://v9"]

/-- Descriptor of the 10-entry playlist with list id `L`. -/
def c1_info : PlaylistInfo :=
  { title := "P", uploader := "U", video_count := 10, url := "https://playlist",
    id := "L", entries := c1_entries, list_id := "L", is_mix := false }

/-- State after accepting the 10-entry playlist with `capacityLimit = 4`. -/
def c1_state : BatchState :=
  (on_playlist_info_extracted initial_state c1_info (some 4)).1

/-- Job-executor stub for the end-to-end scenario: job `https://a`
succeeds; job `https://b` fails once with a retryable error, then
succeeds; job `https://c` fails fatally. -/
def c2_stub (url : String) (k : Nat) : Except String Unit :=
  if url = "https://a" then Except.ok ()
  else if url = "https://b" then
    (if k = 0 then Except.error "connection timeout" else Except.ok ())
  else Except.error "Private video"

/-- Playlist-shape predicate under which every scenario URL is a plain
video URL. -/
def no_playlist_url : String → Bool := fun _ => false

/-- Batch state with the three scenario URLs enqueued under
`capacityLimit = 10`. -/
def c2_state0 : BatchState :=
  let st := (enable_batch_mode initial_state "720p" false "" none none).1
  let st := (add_to_batch no_playlist_url st "https://a" (some 10)).2.1
  let st := (add_to_batch no_playlist_url st "https://b" (some 10)).2.1
  (add_to_batch no_playlist_url st "https://c" (some 10)).2.1

/-- The state in which the end-to-end scenario actually terminates: both
counters reset to zero by the two `complete_batch` clears. -/
def c2_final : BatchState :=
  { is_batch_mode := true
    batch_queue := []
    current_batch_index := 0
    successful_downloads := 0
    failed_downloads := 0
    batch_settings :=
      { resolution := "720p", download_subs := false, download_path := "",
        container_override := none, audio_override := none }
    current_playlist_info := none
    playlist_current_index := 0
    playlist_max_items := none }

/-- One plain-URL enqueue with `capacityLimit = 5`. -/
def c8_add (st : BatchState) (u : String) : Bool × BatchState × List BatchEvent :=
  add_to_batch no_playlist_url st u (some 5)

/-- Empty active batch state. -/
def c8_st0 : BatchState := (enable_batch_mode initial_state "720p" false "" none none).1

/-- States along the enqueue sequence u1, u2, u3, u4. -/
def c8_st3 : BatchState :=
  (c8_add (c8_add (c8_add c8_st0 "u1").2.1 "u2").2.1 "u3").2.1

/-- State after the fourth enqueue (queue size 4 = 80% of 5). -/
def c8_st4 : BatchState := (c8_add c8_st3 "u4").2.1

/-- Queue `[A, B, C, D]` with cursor 2, for the move example. -/
def c9_state : BatchState :=
  { initial_state with
      is_batch_mode := true
      batch_queue := ["A", "B", "C", "D"]
      current_batch_index := 2 }

/-- A full queue (5 URLs, `capacityLimit = 5`) for the admission example. -/
def c7_state : BatchState :=
  { initial_state with
      is_batch_mode := true
      batch_queue := ["u1", "u2", "u3", "u4", "u5"] }

/-- A 3-element queue one short of the 80% threshold of limit 5. -/
def c8w_state : BatchState :=
  { initial_state with is_batch_mode := true, batch_queue := ["a", "b", "c"] }

/-- A 4-element queue with cursor 2, for the invariant witness. -/
def c10_state : BatchState :=
  { initial_state with
      is_batch_mode := true
      batch_queue := ["w", "x", "y", "z"]
      current_batch_index := 2 }

/-! ## Theorems -/

/-- Every action recorded by the retry loop belongs to an iteration whose
cancellation check read `false`: the flag is consulted at the top of each
iteration, before the backoff sleep and before the invocation. -/
theorem retry_aux_cancel_checked (cancelled : Nat → Bool)
    (func : Nat → Except String Unit) (maxRetries : Nat) (delays : List Nat) :
    ∀ remaining attempt a,
      a ∈ (execute_with_retry_aux cancelled func maxRetries delays attempt remaining).2 →
      cancelled (actionAttempt a) = false := by
  intro remaining
  induction remaining with
  | zero =>
    intro attempt a ha
    by_cases hc : cancelled attempt
    · simp [execute_with_retry_aux, hc] at ha
    · rcases hfo : func attempt with e | u <;>
        simp [execute_with_retry_aux, hc, hfo] at ha <;>
        rcases ha with ⟨-, rfl⟩ | rfl <;> simpa [actionAttempt] using hc
  | succ r ih =>
    intro attempt a ha
    by_cases hc : cancelled attempt
    · simp [execute_with_retry_aux, hc] at ha
    · rw [execute_with_retry_aux] at ha
      rcases hfo : func attempt with e | u
      · simp only [hc, Bool.false_eq_true, if_false, hfo] at ha
        split at ha
        · simp at ha
          rcases ha with ⟨-, rfl⟩ | rfl <;> simpa [actionAttempt] using hc
        · split at ha
          · simp at ha
            rcases ha with ⟨-, rfl⟩ | rfl <;> simpa [actionAttempt] using hc
          · simp at ha
            rcases ha with ⟨-, rfl⟩ | rfl | hmem
            · simpa [actionAttempt] using hc
            · simpa [actionAttempt] using hc
            · exact ih (attempt + 1) a hmem
      · simp only [hc, Bool.false_eq_true, if_false, hfo] at ha
        simp at ha
        rcases ha with ⟨-, rfl⟩ | rfl <;> simpa [actionAttempt] using hc

/-- C3: with `maxRetries = 3` and a job executor that fails with a
retryable error on every invocation, `execute_with_retry` performs exactly
4 executor invocations (1 initial + 3 retries) and returns `Failed`
carrying the last (attempt-3) error. -/
theorem c3_retry_budget (delays : List Nat) (func : Nat → Except String Unit)
    (errs : Nat → String)
    (hf : ∀ k, func k = Except.error (errs k))
    (hr : ∀ k, is_retryable_error (errs k) = true) :
    (execute_with_retry 3 delays (fun _ => false) func).1 = Outcome.failed (errs 3) ∧
    invocations (execute_with_retry 3 delays (fun _ => false) func).2 = 4 := by
  simp [execute_with_retry, execute_with_retry_aux, hf 0, hf 1, hf 2, hf 3,
        hr 0, hr 1, hr 2, hr 3, invocations]

/-- Witness for C3: the always-"timeout" executor is invoked 4 times and
the run fails. -/
theorem c3_retry_budget_witness :
    (execute_with_retry 3 [30, 60, 180] (fun _ => false)
        (fun _ => Except.error "timeout")).1 = Outcome.failed "timeout" ∧
    invocations ((execute_with_retry 3 [30, 60, 180] (fun _ => false)
        (fun _ => Except.error "timeout")).2) = 4 :=
  c3_retry_budget [30, 60, 180] (fun _ => Except.error "timeout") (fun _ => "timeout")
    (fun _ => rfl) (fun _ => (by decide : is_retryable_error "timeout" = true))

/-- C4: an error whose text contains a fatal-list pattern (even if it also
contains retryable-list patterns — the fatal list is checked first) makes
the run return `Failed` after exactly one invocation, for every retry
budget. -/
theorem c4_fatal_short_circuit (maxRetries : Nat) (delays : List Nat)
    (func : Nat → Except String Unit) (msg p : String)
    (hp : p ∈ non_retryable_patterns) (hsub : strContainsLower p msg = true)
    (hf : func 0 = Except.error msg) :
    execute_with_retry maxRetries delays (fun _ => false) func
      = (Outcome.failed msg, [RetryAction.invoke 0]) ∧
    invocations (execute_with_retry maxRetries delays (fun _ => false) func).2 = 1 := by
  have hfatal : is_retryable_error msg = false := by
    unfold is_retryable_error
    have h : non_retryable_patterns.any (fun q => containsSub q.data (lowerChars msg)) = true :=
      List.any_eq_true.mpr ⟨p, hp, hsub⟩
    simp [h]
  have hrun : execute_with_retry maxRetries delays (fun _ => false) func
      = (Outcome.failed msg, [RetryAction.invoke 0]) := by
    cases maxRetries with
    | zero => simp [execute_with_retry, execute_with_retry_aux, hf, hfatal]
    | succ m => simp [execute_with_retry, execute_with_retry_aux, hf, hfatal]
  refine ⟨hrun, ?_⟩
  rw [hrun]
  rfl

/-- Witness for C4: an error containing both the fatal pattern
`"private video"` and the retryable patterns `"connection"`/`"timeout"`
still fails after exactly one invocation with budget 3. -/
theorem c4_fatal_short_circuit_witness :
    execute_with_retry 3 [30, 60, 180] (fun _ => false)
        (fun _ => Except.error "Private video - connection timeout")
      = (Outcome.failed "Private video - connection timeout", [RetryAction.invoke 0]) :=
  (c4_fatal_short_circuit 3 [30, 60, 180]
    (fun _ => Except.error "Private video - connection timeout")
    "Private video - connection timeout" "private video"
    (by decide) (by decide) rfl).1

/-- C5: if the cancelled flag is set before any attempt the run returns
`Cancelled` with an empty action trace (no sleep, no invocation); moreover
every recorded action — sleeps included — belongs to an iteration whose
top-of-loop cancellation check read `false`. -/
theorem c5_cancellation_precedence (maxRetries : Nat) (delays : List Nat)
    (cancelled : Nat → Bool) (func : Nat → Except String Unit) :
    (cancelled 0 = true →
      execute_with_retry maxRetries delays cancelled func = (Outcome.cancelledRun, [])) ∧
    (∀ a, a ∈ (execute_with_retry maxRetries delays cancelled func).2 →
      cancelled (actionAttempt a) = false) := by
  constructor
  · intro h0
    cases maxRetries with
    | zero => simp [execute_with_retry, execute_with_retry_aux, h0]
    | succ m => simp [execute_with_retry, execute_with_retry_aux, h0]
  · intro a ha
    exact retry_aux_cancel_checked cancelled func maxRetries (normDelays delays)
      maxRetries 0 a ha

/-- Witness for C5: with the flag already set, the run is cancelled with
no executor invocation. -/
theorem c5_cancellation_witness :
    execute_with_retry 3 [30, 60, 180] (fun _ => true) (fun _ => Except.ok ())
      = (Outcome.cancelledRun, []) :=
  (c5_cancellation_precedence 3 [30, 60, 180] (fun _ => true) (fun _ => Except.ok ())).1 rfl

/-- C6: an error matching no pattern of either list classifies as
retryable (unknown errors default to retryable). -/
theorem c6_unknown_default_retryable (msg : String)
    (hnf : ∀ p ∈ non_retryable_patterns, containsSub p.data (lowerChars msg) = false)
    (hnr : ∀ p ∈ retryable_patterns, containsSub p.data (lowerChars msg) = false) :
    is_retryable_error msg = true := by
  unfold is_retryable_error
  have h1 : non_retryable_patterns.any (fun p => containsSub p.data (lowerChars msg)) = false := by
    rw [List.any_eq_false]
    intro p hp
    simp [hnf p hp]
  have h2 : retryable_patterns.any (fun p => containsSub p.data (lowerChars msg)) = false := by
    rw [List.any_eq_false]
    intro p hp
    simp [hnr p hp]
  simp [h1, h2]

/-- Witness for C6: `"glitch"` matches nothing and classifies as
retryable. -/
theorem c6_unknown_default_retryable_witness :
    is_retryable_error "glitch" = true :=
  c6_unknown_default_retryable "glitch" (by decide) (by decide)

/-- C1 (evaluating the off-by-one): for the 10-entry playlist accepted
with `capacityLimit = 4`, exactly 4 placeholders are enqueued in original
order, but the 4 dequeues materialize URLs built from `entries[1..4]`
(`index=2..5` hints) — the 1-based placeholder number is passed to the
0-based `entries` lookup, so entry 0 (`https://v0`) is never dispatched,
contradicting the claimed `entries 0,1,2,3`. -/
theorem c1_playlist_materialization_off_by_one :
    c1_state.batch_queue =
      ["PLAYLIST_ITEM_1", "PLAYLIST_ITEM_2", "PLAYLIST_ITEM_3", "PLAYLIST_ITEM_4"] ∧
    dequeue_urls id 4 c1_state =
      [some "https://v1?list=L&index=2", some "https://v2?list=L&index=3",
       some "https://v3?list=L&index=4", some "https://v4?list=L&index=5"] := by decide

/-- C2 (evaluating the end-to-end scenario): the three jobs take exactly
1, 2 and 1 executor invocations as claimed, but because
`DownloadThread.run` emits `finished` after `download_failed`, the fatally
failed third job is ALSO counted as a success: the batch completes twice
(summaries `(2,1,3)` then `(1,0,0)`) and the final state has both counters
reset to 0 — not the claimed final `successCount = 2`,
`failureCount = 1`. -/
theorem c2_end_to_end_double_accounting :
    run_batch_session id c2_stub 10 c2_state0 =
      (c2_final,
       [("https://a", 1), ("https://b", 2), ("https://c", 1)],
       [OrchEvent.pumpScheduled, OrchEvent.pumpScheduled,
        OrchEvent.batchCompleted 2 1 3, OrchEvent.batchCompleted 1 0 0]) := by decide

/-- C7: a full queue rejects a plain URL with `limitReached` and stays
unchanged; a non-full queue appends a fresh plain URL and accepts; after
removing one item from a full queue, a re-enqueue succeeds. -/
theorem c7_capacity_admission (isP : String → Bool) (st : BatchState)
    (url : String) (limit idx : Nat)
    (hurl : trimStr url = url) (hne : url ≠ "") (hpl : isP url = false) :
    (limit ≤ st.batch_queue.length →
      add_to_batch isP st url (some limit) =
        (false, st, [BatchEvent.queue_limit_reached st.batch_queue.length])) ∧
    (st.batch_queue.length < limit → url ∉ st.batch_queue →
      (add_to_batch isP st url (some limit)).1 = true ∧
      (add_to_batch isP st url (some limit)).2.1.batch_queue = st.batch_queue ++ [url]) ∧
    (st.batch_queue.length = limit → idx < st.batch_queue.length →
      url ∉ st.batch_queue.eraseIdx idx →
      (add_to_batch isP (remove_from_queue st idx).1 url (some limit)).1 = true) := by
  refine ⟨?_, ?_, ?_⟩
  · intro hfull
    unfold add_to_batch
    rw [hurl]
    simp [hne, hfull]
  · intro hlt hdup
    unfold add_to_batch
    rw [hurl]
    simp [hne, Nat.not_le.mpr hlt, hpl, hdup]
  · intro heq hidx hdup
    unfold remove_from_queue
    simp only [hidx, if_true]
    unfold add_to_batch
    rw [hurl]
    have hlen : (st.batch_queue.eraseIdx idx).length < limit := by
      rw [List.length_eraseIdx_of_lt hidx]
      omega
    simp [hne, Nat.not_le.mpr hlen, hpl, hdup]

/-- Witness for C7: with `capacityLimit = 5` and 5 URLs queued, a 6th
enqueue is rejected with `limitReached(5)`; after removing index 0, the
re-enqueue succeeds. -/
theorem c7_capacity_admission_witness :
    ((5 : Nat) ≤ c7_state.batch_queue.length) ∧
    add_to_batch no_playlist_url c7_state "u6" (some 5) =
      (false, c7_state, [BatchEvent.queue_limit_reached 5]) ∧
    (add_to_batch no_playlist_url (remove_from_queue c7_state 0).1 "u6" (some 5)).1
      = true := by
  have h := c7_capacity_admission no_playlist_url c7_state "u6" 5 0
    (by decide) (by decide) rfl
  refine ⟨by decide, (h.1 (by decide)).trans (by decide), ?_⟩
  exact h.2.2 (by decide) (by decide) (by decide)

/-- C8 (counterexample to the once-per-crossing latch): with
`capacityLimit = 5`, the appends reaching sizes 4 and 5 BOTH emit
`limitWarning`, although the queue never dropped below 80% in between —
the source fires the warning on every append at or above the threshold. -/
theorem c8_limit_warning_not_latched :
    (c8_add c8_st3 "u4").2.2 =
      [BatchEvent.queue_updated, BatchEvent.queue_limit_warning 4 5] ∧
    (c8_add c8_st4 "u5").2.2 =
      [BatchEvent.queue_updated, BatchEvent.queue_limit_warning 5 5] := by decide

/-- C8 (amended): after every successful plain-URL append, `limitWarning`
is emitted exactly when the new size is at least `int(capacityLimit*0.8)`,
with no latch and no re-arming — history-independent. -/
theorem c8_limit_warning_every_append (isP : String → Bool) (st : BatchState)
    (url : String) (limit : Nat)
    (hurl : trimStr url = url) (hne : url ≠ "") (hpl : isP url = false)
    (hlt : st.batch_queue.length < limit)
    (hdup : url ∉ st.batch_queue) :
    (add_to_batch isP st url (some limit)).2.2 =
      [BatchEvent.queue_updated] ++
      (if limit * 8 / 10 ≤ st.batch_queue.length + 1 then
        [BatchEvent.queue_limit_warning (st.batch_queue.length + 1) limit]
      else []) := by
  unfold add_to_batch
  rw [hurl]
  simp [hne, Nat.not_le.mpr hlt, hpl, hdup]

/-- Witness for amended C8: appending to a 3-element queue under limit 5
emits the warning at size 4. -/
theorem c8_limit_warning_every_append_witness :
    (add_to_batch no_playlist_url c8w_state "u" (some 5)).2.2 =
      [BatchEvent.queue_updated, BatchEvent.queue_limit_warning 4 5] :=
  (c8_limit_warning_every_append no_playlist_url c8w_state "u" 5 (by decide) (by decide)
    rfl (by decide) (by decide)).trans (by decide)

/-- Restoring a list by re-inserting the erased element at its old
index. -/
theorem insertIdx_getD_eraseIdx {α : Type} (d : α) :
    ∀ (l : List α) (i : Nat), i < l.length →
      (l.eraseIdx i).insertIdx i (l.getD i d) = l
  | [], i, h => by simp at h
  | a :: l, 0, _ => by simp
  | a :: l, i + 1, h => by
    have ih := insertIdx_getD_eraseIdx d l i (by simpa using h)
    simpa [List.insertIdx_succ_cons] using congrArg (List.cons a) ih

/-- C9: for in-range indices, `move(from, to)` reorders the queue by
pop-and-insert and adjusts the cursor by exactly the three claimed cases:
the cursor follows the moved item when it pointed at it; it decreases by 1
when `from < cursor ≤ to`; it increases by 1 when `to ≤ cursor < from`;
otherwise it is unchanged. -/
theorem c9_move_adjusts_cursor (st : BatchState) (fromIdx toIdx : Nat)
    (hf : fromIdx < st.batch_queue.length) (ht : toIdx < st.batch_queue.length) :
    (move_in_queue st fromIdx toIdx).1 = true ∧
    (move_in_queue st fromIdx toIdx).2.1.batch_queue =
      (st.batch_queue.eraseIdx fromIdx).insertIdx toIdx (st.batch_queue.getD fromIdx "") ∧
    (move_in_queue st fromIdx toIdx).2.1.current_batch_index =
      (if st.current_batch_index = fromIdx then toIdx
       else if fromIdx < st.current_batch_index ∧ st.current_batch_index ≤ toIdx then
         st.current_batch_index - 1
       else if toIdx ≤ st.current_batch_index ∧ st.current_batch_index < fromIdx then
         st.current_batch_index + 1
       else st.current_batch_index) := by
  unfold move_in_queue
  simp only [Nat.not_le.mpr hf, Nat.not_le.mpr ht, ge_iff_le, if_false]
  by_cases he : fromIdx = toIdx
  · subst he
    simp only [if_pos rfl]
    refine ⟨rfl, (insertIdx_getD_eraseIdx "" st.batch_queue fromIdx hf).symm, ?_⟩
    show st.current_batch_index = _
    split_ifs <;> omega
  · simp [he]

/-- Witness for C9 (the spec's own example): on `[A, B, C, D]` with
cursor 2, `move(0, 3)` yields `[B, C, D, A]` and cursor 1. -/
theorem c9_move_adjusts_cursor_witness :
    (move_in_queue c9_state 0 3).1 = true ∧
    (move_in_queue c9_state 0 3).2.1.batch_queue = ["B", "C", "D", "A"] ∧
    (move_in_queue c9_state 0 3).2.1.current_batch_index = 1 := by
  obtain ⟨h1, h2, h3⟩ := c9_move_adjusts_cursor c9_state 0 3 (by decide) (by decide)
  exact ⟨h1, h2.trans (by decide), h3.trans (by decide)⟩

/-- `_build_batch_item_data` never touches the queue or the cursor (it may
only update `playlist_current_index`). -/
theorem build_batch_item_data_state (resolvePath : String → String) (st : BatchState)
    (queue_item : String) (b : Bool) (i : Nat) :
    (build_batch_item_data resolvePath st queue_item b i).2.batch_queue = st.batch_queue ∧
    (build_batch_item_data resolvePath st queue_item b i).2.current_batch_index
      = st.current_batch_index := by
  unfold build_batch_item_data
  cases b
  · simp
  · cases hg : get_playlist_video_url st i <;> simp [hg]

/-- C10: every queue operation — enqueue, dequeue, remove, move, capacity
trim, clear — preserves `0 ≤ cursor ≤ len(items)`, and under that
invariant `isComplete()` holds exactly when `cursor = len(items)`. -/
theorem c10_cursor_invariant (resolvePath : String → String) (isP : String → Bool)
    (st : BatchState) (url : String) (queue_limit : Option Nat)
    (index fromIdx toIdx limit : Nat)
    (h : cursor_invariant st) :
    cursor_invariant (add_to_batch isP st url queue_limit).2.1 ∧
    cursor_invariant (get_next_batch_item resolvePath st).2 ∧
    cursor_invariant (remove_from_queue st index).1 ∧
    cursor_invariant (move_in_queue st fromIdx toIdx).2.1 ∧
    cursor_invariant (trim_queue_to_limit st limit).1 ∧
    cursor_invariant (clear_batch_queue st).1 ∧
    (is_batch_complete st = true ↔ st.current_batch_index = st.batch_queue.length) := by
  unfold cursor_invariant at h
  refine ⟨?_, ?_, ?_, ?_, ?_, ?_, ?_⟩
  · unfold add_to_batch
    cases queue_limit with
    | none =>
      dsimp only
      split_ifs <;> first
        | exact h
        | (simp only [cursor_invariant, List.length_append, List.length_cons,
             List.length_nil]
           omega)
    | some q =>
      dsimp only
      split_ifs <;> first
        | exact h
        | (simp only [cursor_invariant, List.length_append, List.length_cons,
             List.length_nil]
           omega)
  · unfold get_next_batch_item
    by_cases hg : st.is_batch_mode = false ∨ st.batch_queue.length ≤ st.current_batch_index
    · simpa [hg, cursor_invariant] using h
    · simp only [hg, if_false]
      have hlt : st.current_batch_index < st.batch_queue.length :=
        Nat.lt_of_not_le (fun hle => hg (Or.inr hle))
      rcases hp : parse_playlist_item (st.batch_queue.getD st.current_batch_index "")
        with _ | ix <;>
        simp only [hp] <;>
        [(obtain ⟨hq, hcur⟩ := build_batch_item_data_state resolvePath
            { st with current_batch_index := st.current_batch_index + 1 }
            (st.batch_queue.getD st.current_batch_index "") false 0);
         (obtain ⟨hq, hcur⟩ := build_batch_item_data_state resolvePath
            { st with current_batch_index := st.current_batch_index + 1 }
            (st.batch_queue.getD st.current_batch_index "") true ix)] <;>
        · unfold cursor_invariant
          rw [hq, hcur]
          dsimp only
          omega
  · unfold remove_from_queue
    dsimp only
    by_cases h1 : index < st.batch_queue.length
    · rw [if_pos h1]
      have hl := List.length_eraseIdx_of_lt h1
      unfold cursor_invariant
      dsimp only
      rw [hl]
      split_ifs <;> omega
    · rw [if_neg h1]
      exact h
  · unfold move_in_queue
    dsimp only
    by_cases h1 : fromIdx ≥ st.batch_queue.length
    · rw [if_pos h1]
      exact h
    · rw [if_neg h1]
      by_cases h2 : toIdx ≥ st.batch_queue.length
      · rw [if_pos h2]
        exact h
      · rw [if_neg h2]
        by_cases h3 : fromIdx = toIdx
        · rw [if_pos h3]
          exact h
        · rw [if_neg h3]
          have hf : fromIdx < st.batch_queue.length := Nat.lt_of_not_le h1
          have ht : toIdx < st.batch_queue.length := Nat.lt_of_not_le h2
          have hel : (st.batch_queue.eraseIdx fromIdx).length
              = st.batch_queue.length - 1 :=
            List.length_eraseIdx_of_lt hf
          have hil : ((st.batch_queue.eraseIdx fromIdx).insertIdx toIdx
              (st.batch_queue.getD fromIdx "")).length
              = (st.batch_queue.eraseIdx fromIdx).length + 1 :=
            List.length_insertIdx _ _ (by omega)
          unfold cursor_invariant
          dsimp only
          rw [hil, hel]
          split_ifs <;> omega
  · unfold trim_queue_to_limit
    dsimp only
    by_cases h1 : st.batch_queue.length > limit
    · rw [if_pos h1]
      unfold cursor_invariant
      dsimp only
      split_ifs <;> omega
    · rw [if_neg h1]
      exact h
  · simp [clear_batch_queue, cursor_invariant]
  · simp only [is_batch_complete, decide_eq_true_eq]
    omega

/-- Witness for C10: the invariant is preserved on a concrete 4-element
queue with cursor 2 across all six operations, and completion coincides
with `cursor = len`. -/
theorem c10_cursor_invariant_witness :
    cursor_invariant (add_to_batch no_playlist_url c10_state "u" (some 9)).2.1 ∧
    cursor_invariant (get_next_batch_item id c10_state).2 ∧
    cursor_invariant (remove_from_queue c10_state 1).1 ∧
    cursor_invariant (move_in_queue c10_state 0 3).2.1 ∧
    cursor_invariant (trim_queue_to_limit c10_state 2).1 ∧
    cursor_invariant (clear_batch_queue c10_state).1 ∧
    (is_batch_complete c10_state = true ↔
      c10_state.current_batch_index = c10_state.batch_queue.length) :=
  c10_cursor_invariant id no_playlist_url c10_state "u" (some 9) 1 0 3 2
    (by unfold cursor_invariant; decide)

end YTD
